import Mathlib

/-
Verification of the quarri-claude-plugin MCP server core:
credential store (src/auth/token-store.ts), remote call adapter
(src/api/client.ts), tool registry (src/tools/definitions.ts) and the
tool-dispatch handler (src/index.ts).

Modelling conventions:
  - The credentials file is modelled as an `Option StoredCredentials`:
    `none` for a missing file, `some c` for a file whose JSON parses to `c`.
    JSON round-tripping of the record type is faithful for these field
    types, so `saveCredentials` is modelled as writing the record.
  - Timestamps are integers (milliseconds); `new Date(a) < new Date(b)`
    becomes integer `<`.  The `expiresAt` field is `Option Int`: `none`
    models a field that is absent or empty (both are falsy in the
    JavaScript guard `if (credentials.expiresAt)`).
  - JavaScript truthiness of optional strings is explicit: `none` and
    `some ""` are falsy.
  - HTTP traffic is an oracle: `dispatch` records every remote call it
    performs in a list, and the oracle supplies the results.
-/

namespace Quarri

/-- One entry of the credential record's accessible-database list
(interface StoredCredentials.databases, src/auth/token-store.ts). -/
structure DbEntry where
  database_name : String
  display_name : String
  access_level : String
deriving DecidableEq

/-- The persisted session record (interface StoredCredentials,
src/auth/token-store.ts).  `selectedDatabase = none` models an absent
field; `expiresAt = none` models an absent or empty expiry field. -/
structure StoredCredentials where
  token : String
  email : String
  role : String
  databases : List DbEntry
  selectedDatabase : Option String
  expiresAt : Option Int
deriving DecidableEq

/-- JavaScript truthiness of an optional string: undefined/null and the
empty string are falsy. -/
def jsFalsyStr : Option String → Bool
  | none => true
  | some s => s == ""

/-- JavaScript `a || b` for an optional string `a` and default `b`. -/
def jsOr (a : Option String) (b : String) : String :=
  match a with
  | none => b
  | some s => if s == "" then b else s

/-- loadCredentials (src/auth/token-store.ts, current variant): returns
the parsed record, or null when the file is missing or the expiry guard
fires.  When `expiresAt` is set and strictly in the past the record is
treated as absent but the file is kept (for loadExpiredEmail). -/
def loadCredentials (file : Option StoredCredentials) (now : Int) :
    Option StoredCredentials :=
  match file with
  | none => none
  | some credentials =>
    match credentials.expiresAt with
    | none => some credentials
    | some expiresAt => if expiresAt < now then none else some credentials

/-- saveCredentials (src/auth/token-store.ts): writes the whole record,
replacing any prior file content. -/
def saveCredentials (credentials : StoredCredentials) :
    Option StoredCredentials :=
  some credentials

/-- loadExpiredEmail (src/auth/token-store.ts): returns the stored email
only when the stored record exists and is expired; `credentials.email ||
null` makes an empty stored email come back as null. -/
def loadExpiredEmail (file : Option StoredCredentials) (now : Int) :
    Option String :=
  match file with
  | none => none
  | some credentials =>
    match credentials.expiresAt with
    | none => none
    | some expiresAt =>
      if expiresAt < now then
        if credentials.email == "" then none else some credentials.email
      else none

/-- First entry's database_name, used by the fallback in
getSelectedDatabase. -/
def firstDbName : List DbEntry → Option String
  | [] => none
  | d :: _ => some d.database_name

/-- getSelectedDatabase (src/auth/token-store.ts): the stored selection
when truthy, else the first accessible database, else null. -/
def getSelectedDatabase (file : Option StoredCredentials) (now : Int) :
    Option String :=
  match loadCredentials file now with
  | none => none
  | some credentials =>
    match credentials.selectedDatabase with
    | some sel => if sel == "" then firstDbName credentials.databases else some sel
    | none => firstDbName credentials.databases

/-- The match predicate of setSelectedDatabase: an entry matches when the
argument equals its internal name or its display name. -/
def dbMatches (databaseName : String) (d : DbEntry) : Bool :=
  d.database_name == databaseName || d.display_name == databaseName

/-- setSelectedDatabase (src/auth/token-store.ts, current variant):
resolves the argument against the databases list by internal or display
name; on a match stores the matched entry's database_name; with no match
fails unless the role is super_admin, in which case the raw argument is
stored.  Returns the success flag and the resulting file state. -/
def setSelectedDatabase (file : Option StoredCredentials) (now : Int)
    (databaseName : String) : Bool × Option StoredCredentials :=
  match loadCredentials file now with
  | none => (false, file)
  | some credentials =>
    match credentials.databases.find? (dbMatches databaseName) with
    | some db =>
      (true, saveCredentials { credentials with selectedDatabase := some db.database_name })
    | none =>
      if credentials.role = "super_admin" then
        (true, saveCredentials { credentials with selectedDatabase := some databaseName })
      else (false, file)

/-- isAuthenticated / the ensureAuthenticated gate of src/index.ts: a
usable credential is one loadCredentials returns. -/
def ensureAuthenticated (file : Option StoredCredentials) (now : Int) : Bool :=
  (loadCredentials file now).isSome

/-- DEFAULT_TIMEOUT (src/api/client.ts line 7): 60 seconds, in ms. -/
def DEFAULT_TIMEOUT : Nat := 60000

/-- LONG_TIMEOUT (src/api/client.ts line 8), commented in the source as
the timeout for analysis pipelines: 3 minutes, in ms. -/
def LONG_TIMEOUT : Nat := 180000

/-- The parsed JSON body of a backend response, restricted to the field
the adapter itself inspects: the optional error message. -/
structure ResponseBody where
  error : Option String
deriving DecidableEq

/-- Possible outcomes of the underlying fetch call, as seen by
QuarriApiClient.request: the abort fired (timeout), fetch rejected with a
network error, response.json() threw, or a response with a status and a
parsed body arrived. -/
inductive FetchOutcome where
  | fetchTimeout
  | networkError (msg : String)
  | jsonError (msg : String)
  | httpResponse (ok : Bool) (status : Nat) (statusText : String) (body : ResponseBody)
deriving DecidableEq

/-- The adapter's uniform result envelope (interface ApiResponse,
src/api/client.ts). -/
structure ApiResponse where
  success : Bool
  error : Option String
  data : Option ResponseBody
deriving DecidableEq

/-- QuarriApiClient.request (src/api/client.ts lines 77 to 127): error
normalization of a single HTTP exchange.  The timeout branch names the
timeout in seconds; other thrown errors yield their own message; a
non-2xx response yields the backend error field when truthy, else a
generated status line; a 2xx response wraps the parsed body. -/
def request (outcome : FetchOutcome) (timeout : Nat) : ApiResponse :=
  match outcome with
  | .fetchTimeout =>
    { success := false
      error := some ("Request timeout after " ++ toString (timeout / 1000) ++ "s")
      data := none }
  | .networkError msg => { success := false, error := some msg, data := none }
  | .jsonError msg => { success := false, error := some msg, data := none }
  | .httpResponse ok status statusText body =>
    if ok then { success := true, error := none, data := some body }
    else
      { success := false
        error := some (jsOr body.error ("HTTP " ++ toString status ++ ": " ++ statusText))
        data := none }

/-- The shape of one outbound request as issued by the client methods:
method, path, whether auth is attached, the timeout used, and the
database_name put in the body (omitted when falsy). -/
structure RequestSpec where
  method : String
  path : String
  useAuth : Bool
  timeout : Nat
  databaseInBody : Option String
deriving DecidableEq

/-- QuarriApiClient.executeTool (src/api/client.ts lines 323 to 344):
POSTs to /api/cli/tool/{toolName} with the selected database in the body
when truthy.  The call passes no timeout argument, so the request uses
DEFAULT_TIMEOUT. -/
def executeToolRequest (toolName : String) (databaseName : Option String) :
    RequestSpec :=
  { method := "POST"
    path := "/api/cli/tool/" ++ toolName
    useAuth := true
    timeout := DEFAULT_TIMEOUT
    databaseInBody :=
      match databaseName with
      | none => none
      | some s => if s == "" then none else some s }

/-- TOOL_NAME_MAP (src/tools/definitions.ts, current variant): the static
registry mapping external MCP tool names to backend operation names. -/
def TOOL_NAME_MAP : List (String × String) :=
  [("quarri_trial_status", "trial_status"),
   ("quarri_get_query_context", "get_query_context"),
   ("quarri_execute_sql", "execute_sql"),
   ("quarri_get_schema", "get_schema"),
   ("quarri_search_values", "search_values"),
   ("quarri_get_metrics", "get_metrics"),
   ("quarri_create_metric", "create_metric"),
   ("quarri_approve_metric", "approve_metric"),
   ("quarri_get_metric_detail", "get_metric_detail"),
   ("quarri_search_metrics", "search_metrics"),
   ("quarri_list_rules", "list_rules"),
   ("quarri_create_rule", "create_rule"),
   ("quarri_update_rule", "update_rule"),
   ("quarri_delete_rule", "delete_rule"),
   ("quarri_vectorize_column_values", "vectorize_column_values"),
   ("quarri_list_searchable_columns", "list_searchable_columns"),
   ("quarri_list_teams", "list_teams"),
   ("quarri_get_team_filters", "get_team_filters"),
   ("quarri_get_team_restrictions", "get_team_restrictions"),
   ("quarri_list_extraction_sources", "list_extraction_sources"),
   ("quarri_configure_extraction", "configure_extraction"),
   ("quarri_discover_tables", "discover_tables"),
   ("quarri_propose_transformation", "propose_transformation"),
   ("quarri_upload_csv", "upload_csv"),
   ("quarri_generate_quarri_schema", "generate_quarri_schema"),
   ("quarri_list_raw_tables", "list_raw_tables"),
   ("quarri_execute_ddl", "execute_ddl"),
   ("quarri_execute_dml", "execute_dml"),
   ("quarri_query_model_data", "query_model_data"),
   ("quarri_list_staging_tables", "list_staging_tables"),
   ("quarri_introspect_table", "introspect_table"),
   ("quarri_execute_staging_view", "execute_staging_view"),
   ("quarri_execute_silver_view", "execute_silver_view"),
   ("quarri_register_transformation", "register_transformation"),
   ("quarri_get_staging_lineage", "get_staging_lineage"),
   ("quarri_refresh_schema", "refresh_schema"),
   ("quarri_save_model_plan", "save_model_plan"),
   ("quarri_detect_relationships", "detect_relationships"),
   ("quarri_set_relationship", "set_relationship"),
   ("quarri_get_relationships", "get_relationships"),
   ("quarri_read_server_logs", "read_server_logs"),
   ("quarri_query_repl_activity", "query_repl_activity"),
   ("quarri_read_fly_logs", "read_fly_logs"),
   ("quarri_log_analysis_run", "log_analysis_run"),
   ("quarri_schedule_extraction", "schedule_extraction"),
   ("quarri_store_generated_code", "store_generated_code"),
   ("quarri_get_connector_code", "get_connector_code"),
   ("quarri_get_connector_logs", "get_connector_logs"),
   ("quarri_update_connector_code", "update_connector_code"),
   ("quarri_create_environment", "create_environment"),
   ("quarri_list_environments", "list_environments"),
   ("quarri_delete_environment", "delete_environment"),
   ("quarri_promote_environment", "promote_environment"),
   ("quarri_rollback_production", "rollback_production"),
   ("quarri_list_production_snapshots", "list_production_snapshots"),
   ("quarri_create_skill", "create_skill"),
   ("quarri_search_skills", "search_skills"),
   ("quarri_list_skills", "list_skills"),
   ("quarri_get_skill", "get_skill"),
   ("quarri_update_skill", "update_skill"),
   ("quarri_delete_skill", "delete_skill"),
   ("quarri_record_skill_usage", "record_skill_usage")]

/-- getBackendToolName (src/tools/definitions.ts): registry lookup,
null for unknown names. -/
def getBackendToolName (mcpToolName : String) : Option String :=
  TOOL_NAME_MAP.lookup mcpToolName

/-- Arguments of a tool invocation.  The dispatcher itself reads only
database_name (in the quarri_select_database branch); everything else is
forwarded opaquely to the backend. -/
structure ToolArgs where
  database_name : String
deriving DecidableEq

/-- Result of an executeTool remote call, restricted to the fields the
dispatcher branches on; the payload the formatter sees is opaque here. -/
structure ToolResult where
  success : Bool
  error : Option String
deriving DecidableEq

/-- Oracle supplying the results of the remote calls the dispatcher can
make: getTrialStatus and executeTool. -/
structure RemoteOracle where
  trialStatus : ApiResponse
  executeTool : String → ToolArgs → Option String → ToolResult

/-- A remote HTTP call performed during one dispatch, as recorded for the
zero-network-call properties. -/
inductive RemoteCall where
  | trialStatus
  | tool (backendName : String) (databaseName : Option String)
deriving DecidableEq

/-- MCP protocol error classes used by the handler. -/
inductive McpErrorCode where
  | invalidRequest
  | methodNotFound
deriving DecidableEq

/-- Outcome of one tool invocation: a normal reply (text content plus the
isError flag) or a thrown McpError (a protocol-level exception). -/
inductive Outcome where
  | reply (text : String) (isError : Bool)
  | mcpError (code : McpErrorCode) (msg : String)
deriving DecidableEq

/-- Result of one dispatch: the outcome, the credentials-file state after
the invocation, and the remote calls performed. -/
structure DispatchResult where
  outcome : Outcome
  state : Option StoredCredentials
  calls : List RemoteCall
deriving DecidableEq

/-- getAuthInstructions (src/index.ts lines 82 to 96), after .trim(). -/
def getAuthInstructions : String :=
  "Not authenticated with Quarri.\n\n**New to Quarri?** Create a free trial account:\n\n  npx @quarri/claude-data-tools signup\n\n**Existing account?** Log in with:\n\n  npx @quarri/claude-data-tools auth\n\nAfter authenticating, restart Claude Code to pick up the credentials."

/-- Reply text of quarri_auth_status when no usable credential exists
(JSON.stringify of the unauthData object, src/index.ts). -/
def authStatusUnauthText : String :=
  "\x7b\n  \"authenticated\": false,\n  \"message\": \"Not authenticated. Run: npx @quarri/claude-data-tools auth\"\n\x7d"

/-- Reply text of quarri_auth_status for a usable credential.  The
handler pretty-prints a JSON object of status fields; no verified claim
inspects this text, so the rendering abbreviates to its inputs. -/
def authStatusText (credentials : StoredCredentials) (selected : Option String) : String :=
  "auth-status " ++ credentials.email ++ " " ++ credentials.role ++ " " ++ jsOr selected ""

/-- Reply text of quarri_list_databases.  The handler pretty-prints the
databases list as JSON; no verified claim inspects this text, so the
rendering abbreviates to its inputs. -/
def listDatabasesText (credentials : StoredCredentials) (selected : Option String) : String :=
  "databases " ++ String.intercalate "," (credentials.databases.map DbEntry.database_name)
    ++ " selected " ++ jsOr selected ""

/-- The message field of the quarri_select_database success reply
(src/index.ts line 241): it interpolates the raw caller argument. -/
def selectDatabaseMessage (databaseName : String) : String :=
  "Selected database: " ++ databaseName

/-- Reply text of a successful quarri_select_database invocation:
JSON.stringify of the success object, src/index.ts lines 235 to 245. -/
def selectDatabaseSuccessText (databaseName : String) : String :=
  "\x7b\n  \"success\": true,\n  \"message\": \"" ++ selectDatabaseMessage databaseName ++ "\"\n\x7d"

/-- Reply text of quarri_trial_status when the remote call fails:
JSON.stringify of the error object, src/index.ts lines 253 to 263. -/
def trialStatusErrorText (error : Option String) : String :=
  "\x7b\n  \"error\": \"" ++ jsOr error "Failed to get trial status" ++ "\"\n\x7d"

/-- Reply text of quarri_trial_status on success.  The handler builds a
JSON object from the payload; no verified claim inspects this text, so
the rendering abbreviates. -/
def trialStatusText (result : ApiResponse) : String :=
  "trial-status " ++ jsOr result.error ""

/-- The short-circuit reply when no database is selected and none is
available (src/index.ts line 328). -/
def noDatabaseText : String :=
  "No database selected. Use quarri_list_databases to see available databases, then quarri_select_database to choose one."

/-- formatErrorResponse (src/index.ts lines 389 to 391). -/
def formatErrorResponse (error : String) : String :=
  "Error: " ++ error

/-- The tail of the dispatcher (src/index.ts lines 336 to 370): issue the
executeTool remote call with the currently selected database as context,
then reply with the formatter output on success, or an error-flagged
reply carrying the error text on failure. -/
def runRemote (fmt : String → ToolResult → String) (name : String)
    (args : ToolArgs) (file : Option StoredCredentials) (now : Int)
    (oracle : RemoteOracle) (backendToolName : String) : DispatchResult :=
  let db := getSelectedDatabase file now
  let result := oracle.executeTool backendToolName args db
  if result.success then
    { outcome := .reply (fmt name result) false
      state := file
      calls := [.tool backendToolName db] }
  else
    { outcome := .reply (formatErrorResponse (jsOr result.error "Unknown error")) true
      state := file
      calls := [.tool backendToolName db] }

/-- The CallToolRequestSchema handler (src/index.ts lines 143 to 371,
current variant): quarri_auth_status first, then the authentication gate,
then the locally handled tools (list databases, select database, trial
status), then registry resolution, database auto-selection and the remote
call.  `fmt` is formatToolResponse, abstract here because no verified
claim inspects the formatted success text of a remote tool. -/
def dispatch (fmt : String → ToolResult → String) (name : String)
    (args : ToolArgs) (file : Option StoredCredentials) (now : Int)
    (oracle : RemoteOracle) : DispatchResult :=
  if name = "quarri_auth_status" then
    match loadCredentials file now with
    | none => { outcome := .reply authStatusUnauthText false, state := file, calls := [] }
    | some credentials =>
      { outcome := .reply (authStatusText credentials (getSelectedDatabase file now)) false
        state := file
        calls := [] }
  else
    match loadCredentials file now with
    | none => { outcome := .reply getAuthInstructions true, state := file, calls := [] }
    | some _ =>
      if name = "quarri_list_databases" then
        match loadCredentials file now with
        | none => { outcome := .mcpError .invalidRequest "Not authenticated", state := file, calls := [] }
        | some credentials =>
          { outcome := .reply (listDatabasesText credentials (getSelectedDatabase file now)) false
            state := file
            calls := [] }
      else if name = "quarri_select_database" then
        let r := setSelectedDatabase file now args.database_name
        if r.fst then
          { outcome := .reply (selectDatabaseSuccessText args.database_name) false
            state := r.snd
            calls := [] }
        else
          { outcome := .mcpError .invalidRequest
              ("Database \x27" ++ args.database_name ++ "\x27 not found or access denied")
            state := file
            calls := [] }
      else if name = "quarri_trial_status" then
        let result := oracle.trialStatus
        if result.success then
          { outcome := .reply (trialStatusText result) false, state := file, calls := [.trialStatus] }
        else
          { outcome := .reply (trialStatusErrorText result.error) true
            state := file
            calls := [.trialStatus] }
      else
        match getBackendToolName name with
        | none =>
          { outcome := .mcpError .methodNotFound ("Unknown tool: " ++ name)
            state := file
            calls := [] }
        | some backendToolName =>
          let databaseName := getSelectedDatabase file now
          if jsFalsyStr databaseName then
            match loadCredentials file now with
            | some credentials =>
              match credentials.databases with
              | d :: _ =>
                runRemote fmt name args
                  ((setSelectedDatabase file now d.database_name).snd) now oracle backendToolName
              | [] => { outcome := .reply noDatabaseText true, state := file, calls := [] }
            | none => { outcome := .reply noDatabaseText true, state := file, calls := [] }
          else
            runRemote fmt name args file now oracle backendToolName

/-- A row of a tabular result: ordered field name / rendered value pairs.
Cell values are modelled by their String(...) rendering. -/
abbrev TableRow := List (String × String)

/-- Cell access in the formatter: String(row[col] plus the nullish
default), so a missing key renders as the empty string. -/
def jsCell (row : TableRow) (col : String) : String :=
  match row.lookup col with
  | none => ""
  | some v => v

/-- The quarri_execute_sql branch of formatToolResponse (src/index.ts
lines 407 to 430): columns come from the result or from the keys of the
first row; zero rows give a literal message; otherwise a pipe table of
the first 20 rows with a more-rows note when truncated. -/
def formatExecuteSql (rows : List TableRow) (columns : Option (List String)) : String :=
  let cols : List String :=
    match columns with
    | some cs => cs
    | none => match rows with
      | [] => []
      | r :: _ => r.map Prod.fst
  if rows.length = 0 then "No results returned."
  else
    let header := String.intercalate " | " cols
    let separator := String.intercalate " | " (cols.map (fun _ => "---"))
    let dataRows := (rows.take 20).map (fun row =>
      String.intercalate " | " (cols.map (fun col => jsCell row col)))
    let output := "| " ++ header ++ " |\n| " ++ separator ++ " |\n"
      ++ String.intercalate "\n" (dataRows.map (fun r => "| " ++ r ++ " |"))
    if rows.length > 20 then
      output ++ "\n\n... and " ++ toString (rows.length - 20) ++ " more rows"
    else output

/-- Modelled from the spec words for the tabular renderer (refinement
side): the column list used is the given one, or is derived from the keys
of the first row when absent. -/
def specResolveCols (rows : List TableRow) (columns : Option (List String)) : List String :=
  match columns with
  | some cs => cs
  | none =>
    match rows.head? with
    | none => []
    | some r => r.map Prod.fst

/-- Modelled from the spec words for the tabular renderer (refinement
side): a delimited text table of a header row, a separator row and the
shown data rows, with a more-rows notice appended exactly when the total
row count exceeds the 20-row display cap. -/
def specTableRender (cols : List String) (shown : List TableRow) (total : Nat) : String :=
  let table := "| " ++ String.intercalate " | " cols ++ " |\n| "
    ++ String.intercalate " | " (cols.map (fun _ => "---")) ++ " |\n"
    ++ String.intercalate "\n" (shown.map (fun row =>
        "| " ++ String.intercalate " | " (cols.map (fun col => jsCell row col)) ++ " |"))
  if total > 20 then
    table ++ "\n\n... and " ++ toString (total - 20) ++ " more rows"
  else table

/-! Concrete fixtures used by witnesses and counterexamples. -/

/-- A trivial formatter instance, used only to instantiate universally
quantified theorems at a concrete input. -/
def fmt0 : String → ToolResult → String := fun _ _ => ""

/-- A remote oracle whose calls all succeed, used only to instantiate
universally quantified theorems at a concrete input. -/
def oracle0 : RemoteOracle :=
  { trialStatus := { success := true, error := none, data := none }
    executeTool := fun _ _ _ => { success := true, error := none } }

/-- A credential record with one accessible database and no expiry. -/
def cNoExpiry : StoredCredentials :=
  { token := "tok"
    email := "user@example.com"
    role := "member"
    databases := [{ database_name := "sales_db", display_name := "Sales", access_level := "read" }]
    selectedDatabase := none
    expiresAt := none }

/-- A credential record expiring at time 100. -/
def cFuture : StoredCredentials :=
  { cNoExpiry with expiresAt := some 100 }

/-- A credential record with two databases of which the second has an
empty internal database_name. -/
def cEmptyName : StoredCredentials :=
  { cNoExpiry with
    databases :=
      [{ database_name := "a", display_name := "A", access_level := "read" },
       { database_name := "", display_name := "B", access_level := "read" }] }

/-- A credential record with two ordinarily named databases. -/
def cTwoGood : StoredCredentials :=
  { cNoExpiry with
    databases :=
      [{ database_name := "sales_db", display_name := "Sales", access_level := "read" },
       { database_name := "mkt_db", display_name := "Marketing", access_level := "read" }] }

/-- Twenty-five one-column rows, for the truncation witness. -/
def rows25 : List TableRow := List.replicate 25 [("n", "1")]

/-! Helper lemmas shared between claim theorems. -/

/-- The match predicate of setSelectedDatabase, propositionally. -/
lemma dbMatches_iff (X : String) (d : DbEntry) :
    dbMatches X d = true ↔ d.database_name = X ∨ d.display_name = X := by
  simp [dbMatches]

/-- Changing the stored selection does not change the expiry check. -/
lemma loadCredentials_set_selected (c : StoredCredentials) (now : Int) (v : Option String)
    (h : loadCredentials (some c) now = some c) :
    loadCredentials (some { c with selectedDatabase := v }) now
      = some { c with selectedDatabase := v } := by
  unfold loadCredentials at h ⊢
  cases hE : c.expiresAt with
  | none => simp [hE]
  | some t =>
    simp only [hE] at h ⊢
    by_cases hlt : t < now
    · simp [hlt] at h
    · simp [hlt]

/-- runRemote leaves the credentials file unchanged and performs exactly
one remote call, to the backend tool with the selected database. -/
lemma runRemote_state_calls (fmt : String → ToolResult → String) (name : String)
    (args : ToolArgs) (file : Option StoredCredentials) (now : Int)
    (oracle : RemoteOracle) (backendToolName : String) :
    (runRemote fmt name args file now oracle backendToolName).state = file ∧
    (runRemote fmt name args file now oracle backendToolName).calls =
      [.tool backendToolName (getSelectedDatabase file now)] := by
  unfold runRemote
  cases h : (oracle.executeTool backendToolName args (getSelectedDatabase file now)).success <;>
    simp [h]

/-! Claim theorems. -/

/-- C2 (confirmed): for a record with a future expiry, saveCredentials
followed by loadCredentials returns the saved record; for a past expiry,
loadCredentials returns absent regardless of the rest of the content,
while the stored email is still retrievable through loadExpiredEmail. -/
theorem save_load_roundtrip_and_expiry (r : StoredCredentials) (t now : Int)
    (hE : r.expiresAt = some t) :
    (now < t → loadCredentials (saveCredentials r) now = some r) ∧
    (t < now → loadCredentials (saveCredentials r) now = none ∧
      (r.email ≠ "" → loadExpiredEmail (saveCredentials r) now = some r.email)) := by
  refine ⟨?_, ?_⟩
  · intro hf
    unfold saveCredentials loadCredentials
    simp only [hE]
    rw [if_neg (by omega)]
  · intro hp
    refine ⟨?_, ?_⟩
    · unfold saveCredentials loadCredentials
      simp [hE, hp]
    · intro hne
      unfold saveCredentials loadExpiredEmail
      simp [hE, hp, hne]

/-- C2 witness: the round trip and the expiry behaviour at a concrete
record expiring at time 100, observed at times 50 and 200. -/
theorem save_load_roundtrip_witness :
    loadCredentials (saveCredentials cFuture) 50 = some cFuture ∧
    loadCredentials (saveCredentials cFuture) 200 = none ∧
    loadExpiredEmail (saveCredentials cFuture) 200 = some "user@example.com" := by
  have h1 := save_load_roundtrip_and_expiry cFuture 100 50 rfl
  have h2 := save_load_roundtrip_and_expiry cFuture 100 200 rfl
  exact ⟨h1.1 (by decide), (h2.2 (by decide)).1, (h2.2 (by decide)).2 (by decide)⟩

/-- C9 (confirmed): a stored credential whose expiresAt field is absent
or empty skips the expiry check entirely: loadCredentials returns it as
usable at every time, so it passes the authentication gate forever. -/
theorem no_expiry_never_expires (c : StoredCredentials) (now : Int)
    (h : c.expiresAt = none) :
    loadCredentials (some c) now = some c ∧
    ensureAuthenticated (some c) now = true := by
  have hl : loadCredentials (some c) now = some c := by
    unfold loadCredentials
    simp [h]
  exact ⟨hl, by unfold ensureAuthenticated; rw [hl]; rfl⟩

/-- C9 witness: the concrete no-expiry record stays usable at a far
future time. -/
theorem no_expiry_never_expires_witness :
    loadCredentials (some cNoExpiry) 99999999999 = some cNoExpiry ∧
    ensureAuthenticated (some cNoExpiry) 99999999999 = true :=
  no_expiry_never_expires cNoExpiry 99999999999 rfl

/-- C6 (corrected, amended part): request normalizes every expected
failure into a success flag and error value: the timeout branch names the
elapsed timeout in seconds, a network error yields the underlying
message, a non-2xx response yields the backend error field when present
and non-empty and the generated status line otherwise, and a 2xx response
wraps the parsed body in a success envelope. -/
theorem request_error_normalization (t : Nat) (m : String) (status : Nat)
    (statusText : String) (body : ResponseBody) :
    request .fetchTimeout t =
      { success := false
        error := some ("Request timeout after " ++ toString (t / 1000) ++ "s")
        data := none } ∧
    request (.networkError m) t = { success := false, error := some m, data := none } ∧
    (∀ e, body.error = some e → e ≠ "" →
      request (.httpResponse false status statusText body) t =
        { success := false, error := some e, data := none }) ∧
    ((body.error = none ∨ body.error = some "") →
      request (.httpResponse false status statusText body) t =
        { success := false
          error := some ("HTTP " ++ toString status ++ ": " ++ statusText)
          data := none }) ∧
    request (.httpResponse true status statusText body) t =
      { success := true, error := none, data := some body } := by
  refine ⟨rfl, rfl, ?_, ?_, rfl⟩
  · intro e he hne
    unfold request jsOr
    simp [he, hne]
  · rintro (he | he) <;> (unfold request jsOr; simp [he])

/-- C6 witness: the normalization at a concrete timeout, network error
and 404 response carrying a backend error message. -/
theorem request_error_normalization_witness :
    request .fetchTimeout 60000 =
      { success := false, error := some "Request timeout after 60s", data := none } ∧
    request (.networkError "socket hangup") 60000 =
      { success := false, error := some "socket hangup", data := none } ∧
    request (.httpResponse false 404 "Not Found" { error := some "db offline" }) 60000 =
      { success := false, error := some "db offline", data := none } ∧
    request (.httpResponse false 404 "Not Found" { error := none }) 60000 =
      { success := false, error := some "HTTP 404: Not Found", data := none } := by
  have h := request_error_normalization 60000 "socket hangup" 404 "Not Found"
    { error := some "db offline" }
  have h2 := request_error_normalization 60000 "socket hangup" 404 "Not Found"
    { error := none }
  exact ⟨h.1, h.2.1, h.2.2.1 "db offline" rfl (by decide), h2.2.2.2.1 (Or.inl rfl)⟩

/-- C6 counterexample: a 404 response whose backend error field is
present but empty yields the generated status line, not the supplied
(empty) error field, refuting the claim that a present error field is
always passed through. -/
theorem request_empty_error_counterexample :
    (request (.httpResponse false 404 "Not Found" { error := some "" }) DEFAULT_TIMEOUT).error
      = some "HTTP 404: Not Found" ∧
    (request (.httpResponse false 404 "Not Found" { error := some "" }) DEFAULT_TIMEOUT).error
      ≠ some "" := by
  constructor
  · rfl
  · decide

/-- C7 (code bug): the client declares a 60 second default timeout and a
3 minute long timeout commented as being for analysis pipelines, but
executeTool issues its request with the default timeout; the long
timeout is applied to no call. -/
theorem executeTool_uses_default_timeout :
    DEFAULT_TIMEOUT = 60000 ∧ LONG_TIMEOUT = 180000 ∧
    (executeToolRequest "query_with_analysis" (some "sales_db")).timeout = DEFAULT_TIMEOUT ∧
    (executeToolRequest "query_with_analysis" (some "sales_db")).timeout ≠ LONG_TIMEOUT := by
  refine ⟨rfl, rfl, rfl, by decide⟩

/-- C1 (corrected, amended part): with a loaded, unexpired credential,
setSelectedDatabase succeeds exactly when the argument matches an
entry's internal or display name or the role is super_admin; and when
it succeeds by matching an entry whose internal database_name is
non-empty, a subsequent getSelectedDatabase returns that matched entry's
internal database_name. -/
theorem setSelectedDatabase_success_iff (c : StoredCredentials) (now : Int) (X : String)
    (hload : loadCredentials (some c) now = some c) :
    ((setSelectedDatabase (some c) now X).fst = true ↔
      (∃ d ∈ c.databases, d.database_name = X ∨ d.display_name = X) ∨
        c.role = "super_admin") ∧
    (∀ d, c.databases.find? (dbMatches X) = some d → d.database_name ≠ "" →
      getSelectedDatabase ((setSelectedDatabase (some c) now X).snd) now
        = some d.database_name) := by
  constructor
  · unfold setSelectedDatabase
    rw [hload]
    cases hf : c.databases.find? (dbMatches X) with
    | some d =>
      simp only [hf]
      constructor
      · intro _
        left
        refine ⟨d, List.mem_of_find?_eq_some hf, ?_⟩
        exact (dbMatches_iff X d).1 (List.find?_some hf)
      · intro _
        trivial
    | none =>
      simp only [hf]
      by_cases hr : c.role = "super_admin"
      · simp only [hr, if_pos rfl]
        simp [hr]
      · rw [if_neg hr]
        simp only [hr, or_false]
        constructor
        · intro hfalse
          exact absurd hfalse (by decide)
        · rintro ⟨d, hd, hor⟩
          have := List.find?_eq_none.mp hf d hd
          exact absurd ((dbMatches_iff X d).2 hor) (by simpa using this)
  · intro d hf hne
    have hset : setSelectedDatabase (some c) now X =
        (true, some { c with selectedDatabase := some d.database_name }) := by
      simp [setSelectedDatabase, hload, hf, saveCredentials]
    rw [hset]
    have hl2 := loadCredentials_set_selected c now (some d.database_name) hload
    unfold getSelectedDatabase
    rw [hl2]
    simp [hne]

/-- C1 witness: selecting by display name on a two-database record
succeeds and a subsequent getSelectedDatabase yields the matched entry's
internal name. -/
theorem setSelectedDatabase_success_iff_witness :
    (setSelectedDatabase (some cTwoGood) 0 "Marketing").fst = true ∧
    getSelectedDatabase ((setSelectedDatabase (some cTwoGood) 0 "Marketing").snd) 0
      = some "mkt_db" := by
  have h := setSelectedDatabase_success_iff cTwoGood 0 "Marketing" rfl
  refine ⟨h.1.2 (Or.inl ?_), h.2 ⟨"mkt_db", "Marketing", "read"⟩ (by decide) (by decide)⟩
  exact ⟨⟨"mkt_db", "Marketing", "read"⟩, by decide, by decide⟩

/-- C1 counterexample: a record whose second database has an empty
internal name.  Selecting it by display name succeeds and stores the
empty internal name, but getSelectedDatabase then falls back to the
first entry's database_name, not the matched entry's internal name. -/
theorem setSelectedDatabase_counterexample :
    (setSelectedDatabase (some cEmptyName) 0 "B").fst = true ∧
    cEmptyName.databases.find? (dbMatches "B")
      = some { database_name := "", display_name := "B", access_level := "read" } ∧
    getSelectedDatabase ((setSelectedDatabase (some cEmptyName) 0 "B").snd) 0
      = some "a" ∧
    some "a" ≠ some ("" : String) := by
  refine ⟨rfl, rfl, rfl, by decide⟩

/-- C3 (confirmed): with no usable credential, dispatching any tool other
than the exempt quarri_auth_status short-circuits into a non-throwing,
error-flagged reply carrying the authentication instructions, leaves the
stored state untouched, and performs zero remote calls. -/
theorem auth_gate_blocks (fmt : String → ToolResult → String) (name : String)
    (args : ToolArgs) (file : Option StoredCredentials) (now : Int)
    (oracle : RemoteOracle)
    (hname : name ≠ "quarri_auth_status")
    (hload : loadCredentials file now = none) :
    dispatch fmt name args file now oracle =
      { outcome := .reply getAuthInstructions true, state := file, calls := [] } := by
  unfold dispatch
  rw [if_neg hname]
  simp [hload]

/-- C3 witness: dispatching a registered remote tool with a missing
credentials file yields the instructions reply and no remote calls. -/
theorem auth_gate_blocks_witness :
    dispatch fmt0 "quarri_execute_sql" ⟨""⟩ none 0 oracle0 =
      { outcome := .reply getAuthInstructions true, state := none, calls := [] } :=
  auth_gate_blocks fmt0 "quarri_execute_sql" ⟨""⟩ none 0 oracle0 (by decide) rfl

/-- C4 (confirmed): with a usable credential, a tool name absent from the
registry and not locally handled yields a thrown method-not-found
protocol error, distinct from the not-authenticated reply, with zero
remote calls and the state untouched. -/
theorem unknown_tool_method_not_found (fmt : String → ToolResult → String)
    (name : String) (args : ToolArgs) (file : Option StoredCredentials)
    (c : StoredCredentials) (now : Int) (oracle : RemoteOracle)
    (hload : loadCredentials file now = some c)
    (hreg : getBackendToolName name = none)
    (h1 : name ≠ "quarri_auth_status") (h2 : name ≠ "quarri_list_databases")
    (h3 : name ≠ "quarri_select_database") (h4 : name ≠ "quarri_trial_status") :
    dispatch fmt name args file now oracle =
      { outcome := .mcpError .methodNotFound ("Unknown tool: " ++ name)
        state := file
        calls := [] } ∧
    (dispatch fmt name args file now oracle).outcome ≠
      .reply getAuthInstructions true := by
  have h : dispatch fmt name args file now oracle =
      { outcome := .mcpError .methodNotFound ("Unknown tool: " ++ name)
        state := file
        calls := [] } := by
    unfold dispatch
    rw [if_neg h1]
    simp only [hload]
    rw [if_neg h2, if_neg h3, if_neg h4]
    simp [hreg]
  exact ⟨h, by rw [h]; simp⟩

/-- C4 witness: a concrete unregistered tool name with a loaded
credential yields the method-not-found error and no remote calls. -/
theorem unknown_tool_method_not_found_witness :
    dispatch fmt0 "quarri_unknown_tool" ⟨""⟩ (some cNoExpiry) 0 oracle0 =
      { outcome := .mcpError .methodNotFound ("Unknown tool: " ++ "quarri_unknown_tool")
        state := some cNoExpiry
        calls := [] } :=
  (unknown_tool_method_not_found fmt0 "quarri_unknown_tool" ⟨""⟩ (some cNoExpiry)
    cNoExpiry 0 oracle0 rfl (by decide) (by decide) (by decide) (by decide) (by decide)).1

/-- C5 (corrected, amended part): with an unexpired credential whose
selection is unset and whose first database has a non-empty internal
name, getSelectedDatabase returns that first database_name, and
dispatching a registered remote tool uses it as the remote-call context
without persisting it: the stored record is unchanged afterwards. -/
theorem implicit_first_database_context (fmt : String → ToolResult → String)
    (name : String) (args : ToolArgs) (c : StoredCredentials) (d : DbEntry)
    (ds : List DbEntry) (b : String) (now : Int) (oracle : RemoteOracle)
    (hload : loadCredentials (some c) now = some c)
    (hsel : c.selectedDatabase = none)
    (hdbs : c.databases = d :: ds)
    (hne : d.database_name ≠ "")
    (hreg : getBackendToolName name = some b)
    (h1 : name ≠ "quarri_auth_status") (h2 : name ≠ "quarri_list_databases")
    (h3 : name ≠ "quarri_select_database") (h4 : name ≠ "quarri_trial_status") :
    getSelectedDatabase (some c) now = some d.database_name ∧
    (dispatch fmt name args (some c) now oracle).state = some c ∧
    (dispatch fmt name args (some c) now oracle).calls =
      [.tool b (some d.database_name)] := by
  have hg : getSelectedDatabase (some c) now = some d.database_name := by
    unfold getSelectedDatabase
    rw [hload]
    simp [hsel, hdbs, firstDbName]
  have hd : dispatch fmt name args (some c) now oracle =
      runRemote fmt name args (some c) now oracle b := by
    unfold dispatch
    rw [if_neg h1]
    simp only [hload]
    rw [if_neg h2, if_neg h3, if_neg h4]
    simp [hreg, hg, jsFalsyStr, hne]
  have hr := runRemote_state_calls fmt name args (some c) now oracle b
  exact ⟨hg, by rw [hd, hr.1], by rw [hd, hr.2, hg]⟩

/-- C5 counterexample: dispatching a registered tool on a credential with
one database and no selection issues the remote call with the first
database as context, but the state after the invocation still has no
stored selection, refuting the claimed persistence of auto-selection. -/
theorem auto_select_not_persisted_counterexample :
    (dispatch fmt0 "quarri_execute_sql" ⟨""⟩ (some cNoExpiry) 0 oracle0).calls =
      [RemoteCall.tool "execute_sql" (some "sales_db")] ∧
    (dispatch fmt0 "quarri_execute_sql" ⟨""⟩ (some cNoExpiry) 0 oracle0).state =
      some cNoExpiry ∧
    cNoExpiry.selectedDatabase = none ∧
    (loadCredentials ((dispatch fmt0 "quarri_execute_sql" ⟨""⟩ (some cNoExpiry) 0 oracle0).state) 0).map
        StoredCredentials.selectedDatabase ≠ some (some "sales_db") := by
  refine ⟨rfl, rfl, rfl, by decide⟩

/-- C5 amended-claim witness: the concrete no-selection record at a
registered tool name shows the first database used as context and the
record left unchanged. -/
theorem implicit_first_database_context_witness :
    getSelectedDatabase (some cNoExpiry) 0 = some "sales_db" ∧
    (dispatch fmt0 "quarri_get_schema" ⟨""⟩ (some cNoExpiry) 0 oracle0).state =
      some cNoExpiry ∧
    (dispatch fmt0 "quarri_get_schema" ⟨""⟩ (some cNoExpiry) 0 oracle0).calls =
      [.tool "get_schema" (some "sales_db")] :=
  implicit_first_database_context fmt0 "quarri_get_schema" ⟨""⟩ cNoExpiry
    ⟨"sales_db", "Sales", "read"⟩ [] "get_schema" 0 oracle0 rfl rfl rfl
    (by decide) (by decide) (by decide) (by decide) (by decide) (by decide)

/-- C10 (confirmed): a successful quarri_select_database reply carries
the message interpolating the raw caller argument, even though the value
persisted as selectedDatabase is the matched entry's internal
database_name. -/
theorem select_database_echoes_raw_argument (fmt : String → ToolResult → String)
    (c : StoredCredentials) (d : DbEntry) (now : Int) (oracle : RemoteOracle)
    (X : String)
    (hload : loadCredentials (some c) now = some c)
    (hfind : c.databases.find? (dbMatches X) = some d) :
    dispatch fmt "quarri_select_database" ⟨X⟩ (some c) now oracle =
      { outcome := .reply (selectDatabaseSuccessText X) false
        state := some { c with selectedDatabase := some d.database_name }
        calls := [] } ∧
    selectDatabaseSuccessText X =
      "\x7b\n  \"success\": true,\n  \"message\": \"" ++ selectDatabaseMessage X ++ "\"\n\x7d" ∧
    selectDatabaseMessage X = "Selected database: " ++ X := by
  have hset : setSelectedDatabase (some c) now X =
      (true, some { c with selectedDatabase := some d.database_name }) := by
    simp [setSelectedDatabase, hload, hfind, saveCredentials]
  refine ⟨?_, rfl, rfl⟩
  unfold dispatch
  rw [if_neg (by decide : ¬("quarri_select_database" = "quarri_auth_status"))]
  simp only [hload]
  rw [if_neg (by decide : ¬("quarri_select_database" = "quarri_list_databases"))]
  simp [hset]

/-- C10 witness: selecting by display name Sales echoes Sales in the
reply message while the stored selection becomes the internal name
sales_db. -/
theorem select_database_echoes_raw_argument_witness :
    dispatch fmt0 "quarri_select_database" ⟨"Sales"⟩ (some cNoExpiry) 0 oracle0 =
      { outcome := .reply (selectDatabaseSuccessText "Sales") false
        state := some { cNoExpiry with selectedDatabase := some "sales_db" }
        calls := [] } ∧
    selectDatabaseMessage "Sales" = "Selected database: Sales" :=
  ⟨(select_database_echoes_raw_argument fmt0 cNoExpiry
      ⟨"sales_db", "Sales", "read"⟩ 0 oracle0 "Sales" rfl (by decide)).1, rfl⟩

/-- The non-empty case of the C8 refinement, shared between the claim
theorem's conjuncts: formatExecuteSql renders exactly the spec-side table
of the first 20 rows over the resolved column list. -/
lemma formatExecuteSql_eq_specTableRender (rows : List TableRow)
    (columns : Option (List String)) (h : rows ≠ []) :
    formatExecuteSql rows columns =
      specTableRender (specResolveCols rows columns) (rows.take 20) rows.length := by
  cases rows with
  | nil => exact absurd rfl h
  | cons r rs =>
    cases columns with
    | none =>
      simp only [formatExecuteSql, specTableRender, specResolveCols, List.head?,
        List.length_cons, List.map_map]
      rw [if_neg (by omega)]
      rfl
    | some cs =>
      simp only [formatExecuteSql, specTableRender, specResolveCols,
        List.length_cons, List.map_map]
      rw [if_neg (by omega)]
      rfl

/-- C8 (confirmed): the quarri_execute_sql formatter renders the literal
no-results message for zero rows; otherwise it renders the spec-side
table of exactly the first 20 rows (all rows when at most 20 are given)
over the resolved columns, appending the more-rows note naming the count
of rows beyond 20 exactly when more than 20 rows are given; an absent
column list is resolved from the keys of the first row. -/
theorem format_execute_sql_table (rows : List TableRow)
    (columns : Option (List String)) :
    (rows = [] → formatExecuteSql rows columns = "No results returned.") ∧
    (rows ≠ [] →
      formatExecuteSql rows columns =
        specTableRender (specResolveCols rows columns) (rows.take 20) rows.length) ∧
    (rows.take 20).length = min rows.length 20 ∧
    (rows.length ≤ 20 → rows.take 20 = rows) ∧
    (20 < rows.length → ∃ pre,
      formatExecuteSql rows columns =
        pre ++ "\n\n... and " ++ toString (rows.length - 20) ++ " more rows") ∧
    (∀ r rs, rows = r :: rs → columns = none →
      specResolveCols rows columns = r.map Prod.fst) := by
  refine ⟨?_, formatExecuteSql_eq_specTableRender rows columns, ?_, ?_, ?_, ?_⟩
  · intro h
    subst h
    rfl
  · rw [List.length_take]
    omega
  · intro h
    exact List.take_of_length_le h
  · intro h20
    rw [formatExecuteSql_eq_specTableRender rows columns (by
      intro hnil
      subst hnil
      simp at h20)]
    unfold specTableRender
    rw [if_pos h20]
    exact ⟨_, rfl⟩
  · intro r rs hrows hcols
    subst hrows
    subst hcols
    rfl

/-- C8 witness: twenty-five identical rows render as the table of their
first 20 rows with a note of the 5 remaining rows, and an empty row set
renders as the literal no-results message. -/
theorem format_execute_sql_table_witness :
    formatExecuteSql rows25 (some ["n"]) =
      specTableRender ["n"] (rows25.take 20) 25 ∧
    (rows25.take 20).length = 20 ∧
    (∃ pre, formatExecuteSql rows25 (some ["n"]) =
      pre ++ "\n\n... and " ++ toString (25 - 20) ++ " more rows") ∧
    formatExecuteSql [] (some ["n"]) = "No results returned." := by
  have h := format_execute_sql_table rows25 (some ["n"])
  have h0 := format_execute_sql_table ([] : List TableRow) (some ["n"])
  exact ⟨h.2.1 (by decide), by decide, h.2.2.2.2.1 (by decide), h0.1 rfl⟩

end Quarri
